import Mathlib

/-!
Shallow embedding of the Daily Bible App client-side script.

The repository ships two near-duplicate swipe-navigation blocks
(`src/static/app.js` and the first IIFE of `src/unnamed/part_000`) and a
theme-toggle block (second IIFE of `src/unnamed/part_000`).  Touch
coordinates are modelled as rationals, DOM attributes and storage values
as `Option String` (`none` = absent / null), and JavaScript exceptions as
`Except String`.
-/

namespace DailyBible

/-- JS `Math.abs` on rationals. -/
def jsAbs (x : ℚ) : ℚ := if x < 0 then -x else x

/-- A touch point: `clientX` / `clientY` screen coordinates. -/
structure Touch where
  clientX : ℚ
  clientY : ℚ
deriving DecidableEq, Repr

/-- A touch event carrying its `touches` and `changedTouches` lists. -/
structure TouchEvent where
  touches : List Touch
  changedTouches : List Touch
deriving DecidableEq, Repr

/-- The in-progress gesture record: `let startX = null; let startY = null;`. -/
structure SwipeState where
  startX : Option ℚ
  startY : Option ℚ
deriving DecidableEq, Repr

/-- Result of a touch-end handler run: either no effect or an assignment
to `window.location.href`. -/
inductive NavAction where
  | noop
  | goto (url : String)
deriving DecidableEq, Repr

namespace AppJs

/-- Handler `onTouchStart` from `src/static/app.js`:
`const t = e.touches && e.touches[0]; if (!t) return;` then record the
first point's coordinates. -/
def onTouchStart (e : TouchEvent) (s : SwipeState) : SwipeState :=
  match e.touches.head? with
  | Option.none => s
  | Option.some t => { startX := some t.clientX, startY := some t.clientY }

/-- Handler `onTouchEnd` from `src/static/app.js`: guard on gesture-in-progress,
guard on `changedTouches[0]`, threshold test
`Math.abs(dx) > 60 && Math.abs(dx) > Math.abs(dy) * 1.5`, navigate to
`nextUrl` when `dx < 0` else `prevUrl`, then clear the state.  The empty
`changedTouches` guard returns before the clearing lines. -/
def onTouchEnd (prevUrl nextUrl : String) (e : TouchEvent) (s : SwipeState) :
    SwipeState × NavAction :=
  match s.startX, s.startY with
  | some sx, some sy =>
      match e.changedTouches.head? with
      | Option.none => (s, NavAction.noop)
      | Option.some t =>
          let dx := t.clientX - sx
          let dy := t.clientY - sy
          let act :=
            if jsAbs dx > 60 ∧ jsAbs dx > jsAbs dy * (3 / 2) then
              NavAction.goto (if dx < 0 then nextUrl else prevUrl)
            else
              NavAction.noop
          (⟨Option.none, Option.none⟩, act)
  | _, _ => (s, NavAction.noop)

end AppJs

namespace Part000

/-- Handler `onTouchStart` from the first IIFE of `src/unnamed/part_000`:
`const t = e.touches[0];` is unguarded, so an event with no touch points
makes `t.clientX` throw a `TypeError`. -/
def onTouchStart (e : TouchEvent) (_s : SwipeState) : Except String SwipeState :=
  match e.touches.head? with
  | Option.none => Except.error "TypeError"
  | Option.some t => Except.ok { startX := some t.clientX, startY := some t.clientY }

/-- Handler `onTouchEnd` from the first IIFE of `src/unnamed/part_000`: same
thresholds and navigation as `AppJs.onTouchEnd`, but
`const t = e.changedTouches[0];` is unguarded, so with a gesture in
progress and an empty `changedTouches` list `t.clientX` throws. -/
def onTouchEnd (prevUrl nextUrl : String) (e : TouchEvent) (s : SwipeState) :
    Except String (SwipeState × NavAction) :=
  match s.startX, s.startY with
  | some sx, some sy =>
      match e.changedTouches.head? with
      | Option.none => Except.error "TypeError"
      | Option.some t =>
          let dx := t.clientX - sx
          let dy := t.clientY - sy
          let act :=
            if jsAbs dx > 60 ∧ jsAbs dx > jsAbs dy * (3 / 2) then
              NavAction.goto (if dx < 0 then nextUrl else prevUrl)
            else
              NavAction.noop
          Except.ok (⟨Option.none, Option.none⟩, act)
  | _, _ => Except.ok (s, NavAction.noop)

end Part000

/-- JavaScript truthiness of a string-valued attribute read:
`null`/`undefined` (absent) and the empty string are falsy. -/
def truthy : Option String → Bool
  | Option.none => false
  | Option.some s => !(s == "")

/-- The registration guard of both swipe IIFEs:
`if (!prevUrl || !nextUrl) return;` — listeners are attached iff both
attribute values are truthy. -/
def setupSwipe (prevUrl nextUrl : Option String) : Bool :=
  truthy prevUrl && truthy nextUrl

/-- Page-level effect of a touch-end: when the guard failed no listener
was registered, so the event changes nothing and navigates nowhere;
otherwise the registered `AppJs.onTouchEnd` handler runs. -/
def pageTouchEnd (prevUrl nextUrl : Option String) (e : TouchEvent) (s : SwipeState) :
    SwipeState × NavAction :=
  if setupSwipe prevUrl nextUrl then
    AppJs.onTouchEnd (prevUrl.getD "") (nextUrl.getD "") e s
  else
    (s, NavAction.noop)

namespace Theme

/-- Source line `const STORAGE_KEY = "theme";`. -/
def STORAGE_KEY : String := "theme"

/-- Model of `localStorage` as a key-value map; `none` models a missing entry
(`getItem` returning `null`). -/
abbrev Storage := String → Option String

/-- Operation `localStorage.setItem(k, v)`. -/
def setItem (st : Storage) (k v : String) : Storage :=
  fun q => if q = k then some v else st q

/-- The document state the theme code touches: the root's `data-theme`
attribute (`none` = attribute absent) and the optional icon element
(`none` = no element with id `themeIcon`; `some s` = present with
`textContent` `s`). -/
structure Doc where
  rootAttr : Option String
  icon : Option String
deriving DecidableEq, Repr

/-- Function `apply(theme)` from the second IIFE of `src/unnamed/part_000`:
`"light"` sets `data-theme="light"` on the root and, if the icon element
exists, its text to the moon glyph; any other value removes the
attribute and, if the icon exists, sets the sun glyph. -/
def apply (theme : String) (d : Doc) : Doc :=
  if theme = "light" then
    { rootAttr := some "light", icon := d.icon.map fun _ => "🌙" }
  else
    { rootAttr := Option.none, icon := d.icon.map fun _ => "☀️" }

/-- Assignment `icon.textContent = txt` as a fallible DOM write: dereferencing an
absent element raises a `TypeError`. -/
def setText (el : Option String) (txt : String) : Except String (Option String) :=
  match el with
  | Option.none => Except.error "TypeError"
  | Option.some _ => Except.ok (some txt)

/-- Function `apply` with the exception semantics made explicit: the source guards
each icon write with `if (icon)`, so the write only runs on a present
element. -/
def applyE (theme : String) (d : Doc) : Except String Doc :=
  if theme = "light" then
    let d1 : Doc := { d with rootAttr := some "light" }
    if d1.icon.isSome then
      (setText d1.icon "🌙").map fun i => { d1 with icon := i }
    else
      Except.ok d1
  else
    let d1 : Doc := { d with rootAttr := Option.none }
    if d1.icon.isSome then
      (setText d1.icon "☀️").map fun i => { d1 with icon := i }
    else
      Except.ok d1

/-- Source line `const initial = (saved === "light" || saved === "dark") ? saved : "dark";`
`saved` is the raw `getItem` result (`none` when the key is missing). -/
def initial (saved : Option String) : String :=
  if saved = some "light" ∨ saved = some "dark" then saved.getD "dark" else "dark"

/-- The load-time sequence: read the persisted value, resolve the initial
theme, apply it to the document. -/
def load (st : Storage) (d : Doc) : Doc :=
  apply (initial (st STORAGE_KEY)) d

/-- The `btn` click handler:
`const isLight = root.getAttribute("data-theme") === "light";`
(`getAttribute` yields `null` on an absent attribute, which is not
`=== "light"`), compute the opposite, persist it, apply it. -/
def toggleClick (st : Storage) (d : Doc) : Storage × Doc :=
  let isLight := d.rootAttr == some "light"
  let next := if isLight then "dark" else "light"
  (setItem st STORAGE_KEY next, apply next d)

/-- Registration `if (btn) btn.addEventListener("click", ...)`: the click handler
is registered iff the toggle element exists. -/
def setupToggle (btn : Option Unit) : Bool := btn.isSome

/-- Page-level effect of a click on the toggle control: with no `btn`
element no listener was registered, so the click changes nothing. -/
def pageToggleClick (btnPresent : Bool) (p : Storage × Doc) : Storage × Doc :=
  if btnPresent then toggleClick p.1 p.2 else p

/-- The operations that can touch the theme document state after load. -/
inductive ThemeOp where
  | applyOp (theme : String)
  | clickOp
deriving DecidableEq, Repr

/-- One operation on the page state. `applyOp` only touches the document;
`clickOp` runs the toggle handler. -/
def runOp (p : Storage × Doc) (op : ThemeOp) : Storage × Doc :=
  match op with
  | ThemeOp.applyOp t => (p.1, apply t p.2)
  | ThemeOp.clickOp => toggleClick p.1 p.2

/-- A sequence of operations, run left to right. -/
def runOps (ops : List ThemeOp) (p : Storage × Doc) : Storage × Doc :=
  ops.foldl runOp p

/-- Function `apply` as it acts on the whole page state: the source `apply`
touches only the document — it performs no storage write. -/
def applyPage (theme : String) (p : Storage × Doc) : Storage × Doc :=
  (p.1, apply theme p.2)

end Theme

/-! ## General lemmas -/

/-- Function `jsAbs` agrees with the mathematical absolute value. -/
theorem jsAbs_eq_abs (x : ℚ) : jsAbs x = |x| := by
  unfold jsAbs
  rcases lt_or_ge x 0 with h | h
  · rw [if_pos h, abs_of_neg h]
  · rw [if_neg (not_lt.mpr h), abs_of_nonneg h]

/-! ## Claim theorems -/

/-- C1: for a completed gesture (start recorded, touch-end with a changed
touch point) on a page with both URLs, navigation happens iff
`abs(dx) > 60` and `abs(dx) > abs(dy) * 1.5`, going to the next URL when
`dx < 0` and to the previous URL otherwise; the `part_000` handler agrees
with the `app.js` handler on all such gestures. -/
theorem C1_swipe_navigation (prevUrl nextUrl : String) (sx sy : ℚ) (t : Touch)
    (e : TouchEvent) (h : e.changedTouches.head? = some t) :
    (AppJs.onTouchEnd prevUrl nextUrl e ⟨some sx, some sy⟩).2 =
      (if |t.clientX - sx| > 60 ∧ |t.clientX - sx| > |t.clientY - sy| * (1.5 : ℚ) then
        NavAction.goto (if t.clientX - sx < 0 then nextUrl else prevUrl)
      else NavAction.noop) ∧
    Part000.onTouchEnd prevUrl nextUrl e ⟨some sx, some sy⟩ =
      Except.ok (AppJs.onTouchEnd prevUrl nextUrl e ⟨some sx, some sy⟩) := by
  have h15 : (1.5 : ℚ) = 3 / 2 := by norm_num
  constructor
  · simp only [AppJs.onTouchEnd, h, h15, jsAbs_eq_abs]
  · simp only [AppJs.onTouchEnd, Part000.onTouchEnd, h]

/-- Witness for C1 at the spec's own scenario `dx = -100, dy = 10`. -/
theorem C1_swipe_navigation_witness :
    (AppJs.onTouchEnd "p" "n" ⟨[], [⟨0, 10⟩]⟩ ⟨some 100, some 0⟩).2 =
      NavAction.goto "n" ∧
    Part000.onTouchEnd "p" "n" ⟨[], [⟨0, 10⟩]⟩ ⟨some 100, some 0⟩ =
      Except.ok (AppJs.onTouchEnd "p" "n" ⟨[], [⟨0, 10⟩]⟩ ⟨some 100, some 0⟩) := by
  have h := C1_swipe_navigation "p" "n" 100 0 ⟨0, 10⟩ ⟨[], [⟨0, 10⟩]⟩ rfl
  refine ⟨h.1.trans ?_, h.2⟩
  norm_num

/-- C4: when either URL attribute is absent or falsy, no listeners are
registered and no touch input changes state or navigates. -/
theorem C4_disabled_no_navigation (prevUrl nextUrl : Option String)
    (e : TouchEvent) (s : SwipeState)
    (h : truthy prevUrl = false ∨ truthy nextUrl = false) :
    setupSwipe prevUrl nextUrl = false ∧
    pageTouchEnd prevUrl nextUrl e s = (s, NavAction.noop) := by
  have hs : setupSwipe prevUrl nextUrl = false := by
    cases h with
    | inl h1 => simp [setupSwipe, h1]
    | inr h2 => simp [setupSwipe, h2]
  exact ⟨hs, by simp [pageTouchEnd, hs]⟩

/-- Witness for C4: absent previous URL, a long swipe does nothing. -/
theorem C4_disabled_no_navigation_witness :
    setupSwipe Option.none (some "/n") = false ∧
    pageTouchEnd Option.none (some "/n") ⟨[], [⟨0, 0⟩]⟩ ⟨some 100, some 0⟩ =
      (⟨some 100, some 0⟩, NavAction.noop) :=
  C4_disabled_no_navigation Option.none (some "/n") ⟨[], [⟨0, 0⟩]⟩
    ⟨some 100, some 0⟩ (Or.inl rfl)

/-- C5 counterexample: the `part_000` handlers are unguarded — a
touch-start with no touch points, and a touch-end with an empty
changed-touches set during a gesture, both raise a `TypeError` instead of
silently no-opping. -/
theorem C5_counterexample :
    Part000.onTouchStart ⟨[], []⟩ ⟨Option.none, Option.none⟩ =
      Except.error "TypeError" ∧
    Part000.onTouchEnd "p" "n" ⟨[], []⟩ ⟨some 0, some 0⟩ =
      Except.error "TypeError" := by
  constructor <;> rfl

/-- C5 amended: the guarded `app.js` handlers silently no-op (touch-start
with no points leaves state unchanged, touch-end with empty
changed-touches navigates nowhere and leaves state unchanged), while the
unguarded `part_000` touch-start raises on an event with no points. -/
theorem C5_amended_guarded_handlers (s : SwipeState) (cts ts : List Touch)
    (prevUrl nextUrl : String) :
    AppJs.onTouchStart ⟨[], cts⟩ s = s ∧
    AppJs.onTouchEnd prevUrl nextUrl ⟨ts, []⟩ s = (s, NavAction.noop) ∧
    Part000.onTouchStart ⟨[], cts⟩ s = Except.error "TypeError" := by
  refine ⟨rfl, ?_, rfl⟩
  obtain ⟨sx, sy⟩ := s
  cases sx <;> cases sy <;> rfl

/-- C6 counterexample: a touch-end with an empty changed-touches set
during a gesture does not reset the `app.js` gesture state — the handler
returns before the clearing lines. -/
theorem C6_counterexample :
    (AppJs.onTouchEnd "p" "n" ⟨[], []⟩ ⟨some 0, some 0⟩).1.startX ≠
      Option.none := by
  intro h
  exact Option.noConfusion h

/-- C6 amended: a touch-end carrying a changed touch point while a
gesture is in progress always resets the state to no-gesture (whether or
not it navigates); with an empty changed-touches set the state is left
unchanged. -/
theorem C6_amended_reset (prevUrl nextUrl : String) (sx sy : ℚ) (t : Touch)
    (e : TouchEvent) (h : e.changedTouches.head? = some t) :
    (AppJs.onTouchEnd prevUrl nextUrl e ⟨some sx, some sy⟩).1 =
      ⟨Option.none, Option.none⟩ ∧
    (AppJs.onTouchEnd prevUrl nextUrl ⟨e.touches, []⟩ ⟨some sx, some sy⟩).1 =
      ⟨some sx, some sy⟩ := by
  constructor
  · simp only [AppJs.onTouchEnd, h]
  · rfl

/-- Witness for C6 amended: a non-qualifying tap still resets the state. -/
theorem C6_amended_reset_witness :
    (AppJs.onTouchEnd "p" "n" ⟨[], [⟨1, 1⟩]⟩ ⟨some 0, some 0⟩).1 =
      ⟨Option.none, Option.none⟩ ∧
    (AppJs.onTouchEnd "p" "n" ⟨[], []⟩ ⟨some 0, some 0⟩).1 =
      ⟨some 0, some 0⟩ :=
  C6_amended_reset "p" "n" 0 0 ⟨1, 1⟩ ⟨[], [⟨1, 1⟩]⟩ rfl

/-- After any `apply`, the root attribute is absent or exactly "light". -/
theorem apply_rootAttr_cases (theme : String) (d : Theme.Doc) :
    (Theme.apply theme d).rootAttr = Option.none ∨
    (Theme.apply theme d).rootAttr = some "light" := by
  unfold Theme.apply
  split
  · exact Or.inr rfl
  · exact Or.inl rfl

/-- Every operation re-establishes the attribute invariant, whatever the
input state was. -/
theorem runOp_rootAttr_cases (p : Theme.Storage × Theme.Doc) (op : Theme.ThemeOp) :
    (Theme.runOp p op).2.rootAttr = Option.none ∨
    (Theme.runOp p op).2.rootAttr = some "light" := by
  cases op with
  | applyOp t => exact apply_rootAttr_cases t p.2
  | clickOp => exact apply_rootAttr_cases _ p.2

/-- The attribute invariant is preserved by any operation sequence. -/
theorem runOps_rootAttr_cases (ops : List Theme.ThemeOp)
    (p : Theme.Storage × Theme.Doc)
    (h : p.2.rootAttr = Option.none ∨ p.2.rootAttr = some "light") :
    (Theme.runOps ops p).2.rootAttr = Option.none ∨
    (Theme.runOps ops p).2.rootAttr = some "light" := by
  induction ops generalizing p with
  | nil => exact h
  | cons op rest ih => exact ih (Theme.runOp p op) (runOp_rootAttr_cases p op)

/-- On a state whose attribute satisfies the invariant, the handler's
value-equality test agrees with a presence test. -/
theorem rootAttr_test_agrees (d : Theme.Doc)
    (h : d.rootAttr = Option.none ∨ d.rootAttr = some "light") :
    (d.rootAttr == some "light") = d.rootAttr.isSome := by
  cases h with
  | inl h0 => rw [h0] ; rfl
  | inr h1 => rw [h1] ; rfl

/-- C2: on any state reachable from page load by applies and toggle
clicks, the toggle handler's current-theme test (value equality against
"light") coincides with attribute presence, and a click persists the
opposite theme under the storage key and applies it to the document. -/
theorem C2_toggle_click (ops : List Theme.ThemeOp) (st0 : Theme.Storage)
    (d0 : Theme.Doc) :
    ((Theme.runOps ops (st0, Theme.load st0 d0)).2.rootAttr == some "light") =
      (Theme.runOps ops (st0, Theme.load st0 d0)).2.rootAttr.isSome ∧
    Theme.toggleClick (Theme.runOps ops (st0, Theme.load st0 d0)).1
        (Theme.runOps ops (st0, Theme.load st0 d0)).2 =
      (Theme.setItem (Theme.runOps ops (st0, Theme.load st0 d0)).1
          Theme.STORAGE_KEY
          (if (Theme.runOps ops (st0, Theme.load st0 d0)).2.rootAttr.isSome
            then "dark" else "light"),
        Theme.apply
          (if (Theme.runOps ops (st0, Theme.load st0 d0)).2.rootAttr.isSome
            then "dark" else "light")
          (Theme.runOps ops (st0, Theme.load st0 d0)).2) := by
  have hinv := runOps_rootAttr_cases ops (st0, Theme.load st0 d0)
    (apply_rootAttr_cases _ d0)
  have hag := rootAttr_test_agrees _ hinv
  refine ⟨hag, ?_⟩
  unfold Theme.toggleClick
  rw [hag]

/-- C3: the initial theme is the persisted value when it is exactly
"light" or exactly "dark" and "dark" otherwise, and load applies it to
the document. -/
theorem C3_initial_theme (saved : Option String) (st : Theme.Storage)
    (d : Theme.Doc)
    (h1 : saved ≠ some "light") (h2 : saved ≠ some "dark") :
    Theme.initial (some "light") = "light" ∧
    Theme.initial (some "dark") = "dark" ∧
    Theme.initial saved = "dark" ∧
    Theme.load st d = Theme.apply (Theme.initial (st Theme.STORAGE_KEY)) d := by
  refine ⟨rfl, rfl, ?_, rfl⟩
  simp [Theme.initial, h1, h2]

/-- Witness for C3 at the empty persisted value. -/
theorem C3_initial_theme_witness :
    Theme.initial (some "light") = "light" ∧
    Theme.initial (some "dark") = "dark" ∧
    Theme.initial (some "") = "dark" ∧
    Theme.load (fun _ => Option.none) ⟨Option.none, Option.none⟩ =
      Theme.apply (Theme.initial ((fun _ => Option.none) Theme.STORAGE_KEY))
        ⟨Option.none, Option.none⟩ :=
  C3_initial_theme (some "") (fun _ => Option.none) ⟨Option.none, Option.none⟩
    (by simp) (by simp)

/-- C7 counterexample: `apply` writes nothing to storage, so
`Apply("light")` on an empty storage followed by a reload resolves the
initial theme to "dark", not "light". -/
theorem C7_counterexample :
    (Theme.applyPage "light"
        (fun _ => Option.none, ⟨Option.none, some ""⟩)).1 Theme.STORAGE_KEY =
      Option.none ∧
    Theme.initial ((Theme.applyPage "light"
        (fun _ => Option.none, ⟨Option.none, some ""⟩)).1 Theme.STORAGE_KEY) =
      "dark" ∧
    ("dark" : String) ≠ "light" := by
  refine ⟨rfl, rfl, ?_⟩
  decide

/-- C7 amended: persistence round-trips through the toggle action, which
is the operation that writes storage: a click from a non-light state
persists "light", and a reload then resolves the initial theme to
"light"; an invalid or missing persisted value resolves to "dark". -/
theorem C7_amended_roundtrip (st : Theme.Storage) (d : Theme.Doc)
    (v : Option String) (hd : (d.rootAttr == some "light") = false)
    (h1 : v ≠ some "light") (h2 : v ≠ some "dark") :
    Theme.initial ((Theme.toggleClick st d).1 Theme.STORAGE_KEY) = "light" ∧
    Theme.initial v = "dark" := by
  constructor
  · unfold Theme.toggleClick
    rw [hd]
    simp [Theme.setItem, Theme.initial]
  · simp [Theme.initial, h1, h2]

/-- Witness for C7 amended: toggling from the dark default then reloading
reads "light"; a missing value reads "dark". -/
theorem C7_amended_roundtrip_witness :
    Theme.initial ((Theme.toggleClick (fun _ => Option.none)
        ⟨Option.none, Option.none⟩).1 Theme.STORAGE_KEY) = "light" ∧
    Theme.initial Option.none = "dark" :=
  C7_amended_roundtrip (fun _ => Option.none) ⟨Option.none, Option.none⟩
    Option.none rfl (by simp) (by simp)

/-- C8: `apply` is idempotent on the document state for every theme
value. -/
theorem C8_apply_idempotent (theme : String) (d : Theme.Doc) :
    Theme.apply theme (Theme.apply theme d) = Theme.apply theme d := by
  by_cases h : theme = "light" <;>
    cases hi : d.icon <;> simp [Theme.apply, h, hi]

/-- C9: with the icon element absent, `apply` skips the icon update and
completes without raising; with the toggle control absent, no click
listener is registered and a click changes nothing. -/
theorem C9_optional_elements (theme : String) (d : Theme.Doc)
    (p : Theme.Storage × Theme.Doc) (h : d.icon = Option.none) :
    Theme.applyE theme d = Except.ok (Theme.apply theme d) ∧
    (Theme.apply theme d).icon = Option.none ∧
    Theme.setupToggle Option.none = false ∧
    Theme.pageToggleClick false p = p := by
  refine ⟨?_, ?_, rfl, rfl⟩
  · by_cases ht : theme = "light" <;> simp [Theme.applyE, Theme.apply, ht, h]
  · by_cases ht : theme = "light" <;> simp [Theme.apply, ht, h]

/-- Witness for C9 with no icon and no toggle control. -/
theorem C9_optional_elements_witness :
    Theme.applyE "light" ⟨Option.none, Option.none⟩ =
      Except.ok (Theme.apply "light" ⟨Option.none, Option.none⟩) ∧
    (Theme.apply "light" ⟨Option.none, Option.none⟩).icon = Option.none ∧
    Theme.setupToggle Option.none = false ∧
    Theme.pageToggleClick false (fun _ => Option.none, ⟨Option.none, Option.none⟩) =
      (fun _ => Option.none, ⟨Option.none, Option.none⟩) :=
  C9_optional_elements "light" ⟨Option.none, Option.none⟩
    (fun _ => Option.none, ⟨Option.none, Option.none⟩) rfl

/-- C10: on every state reachable from page load by applies and toggle
clicks, the root attribute is either absent or exactly "light" (the dark
branch removes it rather than storing "dark"), so the value-equality test
and a presence test agree on every reachable document state. -/
theorem C10_light_only_indicator (ops : List Theme.ThemeOp)
    (st0 : Theme.Storage) (d0 : Theme.Doc) :
    ((Theme.runOps ops (st0, Theme.load st0 d0)).2.rootAttr = Option.none ∨
     (Theme.runOps ops (st0, Theme.load st0 d0)).2.rootAttr = some "light") ∧
    ((Theme.runOps ops (st0, Theme.load st0 d0)).2.rootAttr == some "light") =
      (Theme.runOps ops (st0, Theme.load st0 d0)).2.rootAttr.isSome := by
  have hinv := runOps_rootAttr_cases ops (st0, Theme.load st0 d0)
    (apply_rootAttr_cases _ d0)
  exact ⟨hinv, rootAttr_test_agrees _ hinv⟩

end DailyBible
